import Mathlib

/-!
Verification development for the Pocket Tanks (Lite) artillery game
(`pocket_tanks_pi.py`).  The Python code is shallowly embedded: pure
Python floats become exact rationals (`ℚ`), Python ints become `ℤ`/`ℕ`,
the pygame alpha-mask terrain surface becomes a boolean occupancy
function, and all randomness (terrain profile, wind, muzzle-direction
cosine/sine, AI candidate draws) is passed in explicitly as parameters.
Rendering-only data (colors, surfaces) is omitted.
-/

set_option maxRecDepth 40000

namespace PocketTanks

/-- WIDTH constant from the config section. -/
def WIDTH : ℤ := 960

/-- HEIGHT constant from the config section. -/
def HEIGHT : ℤ := 540

/-- GRAVITY = 0.22 from the config section. -/
def GRAVITY : ℚ := 11 / 50

/-- Python `int(q)` on a float: truncation toward zero, which on the reduced
fraction `num / den` (with `den > 0`) is the toward-zero integer division. -/
def pyInt (q : ℚ) : ℤ := q.num.tdiv q.den

/-- The destructible terrain: `Terrain.__init__` stores width, height and a
pixel surface whose alpha channel encodes solidity (`alpha > 0` ⇔ solid).
The surface is embedded as the boolean occupancy function `solid`. -/
structure Terrain where
  width : ℕ
  height : ℕ
  solid : ℤ → ℤ → Bool

/-- `Terrain.generate`: fills every column below a clamped skyline.
The skyline value `baseline - int(h + jitter)` at column x (a sum of sines
plus random jitter) is abstracted as the parameter `profile : ℤ → ℤ`; the
code then clamps it to `[120, height-1]` via `max(120, min(height-1, y))`
and fills the polygon below the curve as fully opaque. -/
def Terrain.generate (profile : ℤ → ℤ) : Terrain :=
  { width := 960
    height := 540
    solid := fun x y => decide (max 120 (min 539 (profile x)) ≤ y) }

/-- `Terrain.destroy(x, y, radius)`: `pygame.draw.circle` with a fully
transparent color clears the disc of the given radius around the center
(modelled as the closed disc in the squared-distance metric). -/
def Terrain.destroy (t : Terrain) (x0 y0 r : ℤ) : Terrain :=
  { t with solid := fun x y =>
      if (x - x0) ^ 2 + (y - y0) ^ 2 ≤ r ^ 2 then false else t.solid x y }

/-- Bounded scan used by `ground_y_at`: first index `y`, starting at `start`
and trying `fuel` rows, where `f` holds; `start + fuel` if none. -/
def scanFirst (f : ℕ → Bool) : ℕ → ℕ → ℕ
  | start, 0 => start
  | start, fuel + 1 => if f start then start else scanFirst f (start + 1) fuel

/-- `Terrain.ground_y_at(x)`: clamp x to `[0, width-1]`, then scan the column
from the top and return the first solid row, or `height` if none. -/
def Terrain.ground_y_at (t : Terrain) (x : ℤ) : ℕ :=
  scanFirst (fun y => t.solid (max 0 (min ((t.width : ℤ) - 1) x)) (y : ℤ)) 0 t.height

/-- `Terrain.collides(x, y)`: out of bounds is never solid, otherwise query
the mask. -/
def Terrain.collides (t : Terrain) (x y : ℤ) : Bool :=
  if x < 0 ∨ (t.width : ℤ) ≤ x ∨ y < 0 ∨ (t.height : ℤ) ≤ y then false
  else t.solid x y

/-- The `Tank` dataclass (`color` is rendering-only and omitted; the
`y_ground` attribute is attached dynamically in Python right after
construction by `tank_positions_on_ground`, so it is a plain field here). -/
structure Tank where
  x : ℤ
  angle : ℚ
  power : ℚ
  alive : Bool
  facing : ℤ
  yGround : ℤ

/-- The `Shell` dataclass. -/
structure Shell where
  x : ℚ
  y : ℚ
  vx : ℚ
  vy : ℚ
  alive : Bool
  deriving DecidableEq

/-- `Shell.step(wind)`: Euler integration, then the out-of-bounds test on the
new position (`x < -20 or x > WIDTH + 20 or y > HEIGHT + 40`). -/
def Shell.stepW (sh : Shell) (wind : ℚ) : Shell :=
  let x := sh.x + sh.vx
  let y := sh.y + sh.vy
  let vx := sh.vx + wind * (2 / 100)
  let vy := sh.vy + GRAVITY
  { x := x, y := y, vx := vx, vy := vy
    alive := if x < -20 ∨ (WIDTH : ℚ) + 20 < x ∨ (HEIGHT : ℚ) + 40 < y then false
             else sh.alive }

/-- One AI candidate draw: the sampled angle `ang = random.uniform(30, 80)`
together with `c = cos(radians(180 - ang))` and `sn = sin(radians(180 - ang))`,
the trigonometric values the code computes from it (irrational in general, so
they are carried as data). -/
structure AICand where
  ang : ℚ
  c : ℚ
  sn : ℚ

/-- The `Game` state: the fields of `Game.__init__` minus the pygame
screen/clock/font handles, which are rendering-only.  `scores` is the
two-element list `[p1_score, p2_score]`. -/
structure GameState where
  terrain : Terrain
  wind : ℚ
  p1 : Tank
  p2 : Tank
  turn : ℕ
  shell : Option Shell
  aiForP2 : Bool
  scores : ℕ × ℕ

namespace Game

/-- `self.scores[i] += n` for `i ∈ {0, 1}`. -/
def addScore (s : GameState) (i : ℕ) (n : ℕ) : GameState :=
  if i = 0 then { s with scores := (s.scores.1 + n, s.scores.2) }
  else { s with scores := (s.scores.1, s.scores.2 + n) }

/-- `self.turn = 2 if self.turn == 1 else 1`. -/
def flip (t : ℕ) : ℕ := if t = 1 then 2 else 1

/-- `Game.tank_positions_on_ground`: recompute both tanks' ground contact. -/
def tank_positions_on_ground (s : GameState) : GameState :=
  { s with
    p1 := { s.p1 with yGround := (s.terrain.ground_y_at s.p1.x : ℤ) }
    p2 := { s.p2 with yGround := (s.terrain.ground_y_at s.p2.x : ℤ) } }

/-- `Game.spawn_shell(tank)`.  `c`/`sn` stand for the cosine/sine of
`radians(angle if facing == 1 else 180 - angle)`; `speed = power * 0.8`. -/
def spawn_shell (t : Tank) (c sn : ℚ) : Shell :=
  let speed := t.power * (4 / 5)
  { x := (t.x : ℚ) + c * 18
    y := (t.yGround : ℚ) - 12 - sn * 18
    vx := c * speed
    vy := -(sn * speed)
    alive := true }

/-- Squared distance used in `Game.explode`:
`math.hypot(t.x - x, (t.y_ground - 10) - y) ** 2`, which is exact integer
arithmetic since all four coordinates are ints. -/
def distSqZ (t : Tank) (x y : ℤ) : ℤ :=
  (t.x - x) ^ 2 + ((t.yGround - 10) - y) ^ 2

/-- Fuel-bounded binary search for the integer square root: on an interval
`[lo, hi)` with `lo² ≤ m < hi²`, narrow to the floor of `sqrt m`. -/
def sqrtBS (m : ℕ) : ℕ → ℕ → ℕ → ℕ
  | lo, _, 0 => lo
  | lo, hi, fuel + 1 =>
    if hi ≤ lo + 1 then lo
    else
      let mid := (lo + hi) / 2
      if mid * mid ≤ m then sqrtBS m mid hi fuel else sqrtBS m lo mid fuel

/-- Integer square root, `⌊sqrt m⌋`. -/
def isqrt (m : ℕ) : ℕ := sqrtBS m 0 (m + 1) (m + 1)

/-- `int(40 * (1.0 - d / 28))` where `d = sqrt n`, computed exactly from the
squared distance `n`: with `s = ⌊10 * sqrt n⌋ = ⌊sqrt (100 n)⌋ = isqrt (100 n)`,
the value `40 - (10/7) * sqrt n` has floor `40 - s/7` when `(10/7) * sqrt n`
is an exact integer and `40 - (s/7 + 1)` otherwise (the quantity is
nonnegative for `n < 784`, so Python's toward-zero truncation is the floor).
Lemma `awardOfDistSq_eq_floor` below proves this encoding equal to the
real-number floor expression. -/
def awardOfDistSq (n : ℕ) : ℕ :=
  let s := isqrt (100 * n)
  if s * s = 100 * n ∧ s % 7 = 0 then 40 - s / 7 else 40 - (s / 7 + 1)

/-- Spec-side helper: the crater bonus a single tank generates when an
explosion happens at `(x, y)` — `int(40 * (1 - d / 28))` if `d < 28`
(`d < radius + 4` ⇔ `d² < 784`), nothing otherwise. -/
def craterBonus (t : Tank) (x y : ℤ) : ℕ :=
  if distSqZ t x y < 784 then awardOfDistSq (distSqZ t x y).toNat else 0

/-- One iteration of the scoring loop of `Game.explode` for the tank with
loop index `i` (`0` = p1, `1` = p2): award `self.scores[self.turn - 1]`
if `d < radius + 4` and the tank is the non-turn side.  Note the code does
not consult `t.alive` here. -/
def explodeAward (s : GameState) (x y : ℤ) (i : ℕ) (t : Tank) : GameState :=
  if distSqZ t x y < 784 then
    if (s.turn = 1 ∧ i = 1) ∨ (s.turn = 2 ∧ i = 0) then
      addScore s (s.turn - 1) (awardOfDistSq (distSqZ t x y).toNat)
    else s
  else s

/-- `Game.explode(x, y)`: carve a radius-24 crater, then run the scoring
loop over `(p1, p2)`. -/
def explode (s : GameState) (x y : ℤ) : GameState :=
  let s1 := { s with terrain := s.terrain.destroy x y 24 }
  let s2 := explodeAward s1 x y 0 s1.p1
  explodeAward s2 x y 1 s2.p2

/-- The terrain-collision test of `Game.update`:
`0 <= ix < WIDTH and 0 <= iy < HEIGHT and self.terrain.collides(ix, iy)`. -/
def terrain_hit (t : Terrain) (ix iy : ℤ) : Bool :=
  decide (0 ≤ ix) && decide (ix < WIDTH) && decide (0 ≤ iy) && decide (iy < HEIGHT)
    && t.collides ix iy

/-- The per-tank proximity test of `Game.update`: the tank is alive and
`math.hypot(t.x - shell.x, (t.y_ground - 10) - shell.y) < 16`
(equivalently the squared distance is `< 256`). -/
def prox_hit (t : Tank) (sh : Shell) : Bool :=
  t.alive && decide (((t.x : ℚ) - sh.x) ^ 2 + (((t.yGround : ℚ) - 10) - sh.y) ^ 2 < 256)

/-- The proximity loop of `Game.update`: iterate over `(p1, p2)` in order
with `break` on the first hit; on a hit on loop index `idx`, explode at
`(ix, iy)`, then `self.scores[0 if idx == 1 else 1] += 30`, and report that
the shell died.  The loop runs whether or not the terrain test hit. -/
def prox_resolve (s : GameState) (sh : Shell) (ix iy : ℤ) : GameState × Bool :=
  if prox_hit s.p1 sh then (addScore (explode s ix iy) 1 30, true)
  else if prox_hit s.p2 sh then (addScore (explode s ix iy) 0 30, true)
  else (s, false)

/-- The AI's inner forward simulation (the 240-step loop of
`Game.simple_ai_fire`): Euler-integrate, break on leaving bounds or on
`y >= ground_y_at(int(x))`, and return the final x. -/
def aiSim (terr : Terrain) (wind : ℚ) : ℕ → ℚ → ℚ → ℚ → ℚ → ℚ
  | 0, x, _, _, _ => x
  | fuel + 1, x, y, vx, vy =>
    let x' := x + vx
    let y' := y + vy
    let vx' := vx + wind * (2 / 100)
    let vy' := vy + GRAVITY
    if (HEIGHT : ℚ) ≤ y' ∨ x' < 0 ∨ (WIDTH : ℚ) < x' then x'
    else if (terr.ground_y_at (pyInt x') : ℚ) ≤ y' then x'
    else aiSim terr wind fuel x' y' vx' vy'

/-- Simulated landing x of one AI candidate: start at
`(float(p2.x), float(p2.y_ground - 12))` with
`vx = c * power * 0.8`, `vy = -sn * power * 0.8`, 240 steps max. -/
def aiLand (s : GameState) (pw : ℚ) (cd : AICand) : ℚ :=
  aiSim s.terrain s.wind 240 (s.p2.x : ℚ) ((s.p2.yGround : ℚ) - 12)
    (cd.c * pw * (4 / 5)) (-(cd.sn * pw * (4 / 5)))

/-- The candidate-selection loop of `Game.simple_ai_fire`: running best
candidate (initially `None`) and best distance (initially `1e9`); a
candidate replaces the best when `abs(x - target_x) < best_dist` strictly. -/
def aiBest (s : GameState) (pw : ℚ) : List AICand → Option AICand → ℚ → Option AICand × ℚ
  | [], best, bd => (best, bd)
  | cd :: rest, best, bd =>
    let d := |aiLand s pw cd - (s.p1.x : ℚ)|
    if d < bd then aiBest s pw rest (some cd) d
    else aiBest s pw rest best bd

/-- `Game.simple_ai_fire`: the shared random power draw `pw`
(`random.uniform(24, 30)`) and the 10 random angle candidates are passed in
as data.  If a best candidate was found, set the AI tank's angle/power to
it and spawn the shell (`spawn_shell(self.p2)` recomputes the launch
direction from `180 - angle`, whose cosine/sine are exactly the
candidate's `c`/`sn`). -/
def simple_ai_fire (s : GameState) (pw : ℚ) (cands : List AICand) : GameState :=
  match (aiBest s pw cands none ((10 : ℚ) ^ 9)).1 with
  | some cd =>
    let p2' := { s.p2 with angle := cd.ang, power := pw }
    { s with p2 := p2', shell := some (spawn_shell p2' cd.c cd.sn) }
  | none => s

/-- The no-live-shell branch of `Game.update`:
`if self.ai_for_p2 and self.turn == 2: self.simple_ai_fire()`. -/
def ai_branch (s : GameState) (pw : ℚ) (cands : List AICand) : GameState :=
  if s.aiForP2 && decide (s.turn = 2) then simple_ai_fire s pw cands else s

/-- `Game.update`.  With a live shell: step it, run the terrain test at its
truncated position (exploding on hit), then run the proximity loop
(unconditionally), and if the shell died this tick flip the turn, clear the
shell and recompute ground contact.  Otherwise run the AI branch.  The AI's
random draws are the explicit parameters `pw`, `cands`. -/
def update (s : GameState) (pw : ℚ) (cands : List AICand) : GameState :=
  match s.shell with
  | some sh0 =>
    if sh0.alive then
      let sh := Shell.stepW sh0 s.wind
      let ix := pyInt sh.x
      let iy := pyInt sh.y
      let tHit := terrain_hit s.terrain ix iy
      let s1 := if tHit then explode s ix iy else s
      let pr := prox_resolve s1 sh ix iy
      let aliveF := sh.alive && !tHit && !pr.2
      if aliveF then { pr.1 with shell := some sh }
      else tank_positions_on_ground { pr.1 with turn := flip pr.1.turn, shell := none }
    else ai_branch s pw cands
  | none => ai_branch s pw cands

/-- `Game.reset_round(regen_terrain)`; the fresh random draws (terrain
profile, wind) are parameters. -/
def reset_round (s : GameState) (regen : Bool) (profile : ℤ → ℤ) (wind' : ℚ) : GameState :=
  let t := if regen then Terrain.generate profile else s.terrain
  { tank_positions_on_ground
      { s with terrain := t, wind := wind', shell := none
               p1 := { s.p1 with alive := true }
               p2 := { s.p2 with alive := true } }
    with turn := 1 }

/-- The discrete key-down events handled by `Game.handle_event` (QUIT/ESC
terminate the process and are outside the state machine).  Random draws
consumed by an event (new terrain profile, new wind) and the trigonometric
values of the firing tank's aim are carried as data. -/
inductive GEvent where
  | keyN (wind' : ℚ) (profile : ℤ → ℤ)
  | keyR (profile : ℤ → ℤ)
  | keyT
  | keySpace (c sn : ℚ)
  | keyCtrl (c sn : ℚ)

/-- `Game.handle_event` on key-down events: N resets the round with terrain
regeneration, R regenerates terrain only, T toggles the AI flag, and the
fire keys spawn only on the right turn with no existing shell object
(`not self.shell`). -/
def handle_event (s : GameState) (e : GEvent) : GameState :=
  match e with
  | .keyN wind' profile => reset_round s true profile wind'
  | .keyR profile =>
      tank_positions_on_ground { s with terrain := Terrain.generate profile }
  | .keyT => { s with aiForP2 := !s.aiForP2 }
  | .keySpace c sn =>
      if s.turn = 1 ∧ s.shell = none then
        { s with shell := some (spawn_shell s.p1 c sn) }
      else s
  | .keyCtrl c sn =>
      if s.turn = 2 ∧ s.shell = none then
        { s with shell := some (spawn_shell s.p2 c sn) }
      else s

/-- The held-key state polled by `Game.handle_input`. -/
structure Keys where
  left : Bool
  right : Bool
  up : Bool
  down : Bool
  ka : Bool
  kd : Bool
  kw : Bool
  ks : Bool

/-- `Game.handle_input`: per-tick aim nudges with clamping, P1 on turn 1,
otherwise P2; each key is an independent sequential `if`. -/
def handle_input (s : GameState) (k : Keys) : GameState :=
  if s.turn = 1 then
    let a1 := if k.left then max 5 (s.p1.angle - 4 / 5) else s.p1.angle
    let a2 := if k.right then min 85 (a1 + 4 / 5) else a1
    let q1 := if k.up then min 40 (s.p1.power + 2 / 5) else s.p1.power
    let q2 := if k.down then max 12 (q1 - 2 / 5) else q1
    { s with p1 := { s.p1 with angle := a2, power := q2 } }
  else
    let a1 := if k.ka then min 85 (s.p2.angle + 4 / 5) else s.p2.angle
    let a2 := if k.kd then max 5 (a1 - 4 / 5) else a1
    let q1 := if k.kw then min 40 (s.p2.power + 2 / 5) else s.p2.power
    let q2 := if k.ks then max 12 (q1 - 2 / 5) else q1
    { s with p2 := { s.p2 with angle := a2, power := q2 } }

end Game

/-- `Game.__init__`: generated terrain, tanks at `int(WIDTH * 0.12) = 115`
and `int(WIDTH * 0.88) = 844` with angle 45 / power 28, ground contact
computed, turn 1, no shell, zero scores.  The random draws (terrain profile,
wind) are parameters. -/
def initState (profile : ℤ → ℤ) (wind : ℚ) (ai : Bool) : GameState :=
  Game.tank_positions_on_ground
    { terrain := Terrain.generate profile
      wind := wind
      p1 := { x := 115, angle := 45, power := 28, alive := true, facing := 1, yGround := 0 }
      p2 := { x := 844, angle := 45, power := 28, alive := true, facing := -1, yGround := 0 }
      turn := 1
      shell := none
      aiForP2 := ai
      scores := (0, 0) }

/-- One transition of the main loop: a simulation tick (`Game.update`), a
key-down event (`Game.handle_event`), or a held-key poll
(`Game.handle_input`), each with its random draws existentially free. -/
inductive Step : GameState → GameState → Prop where
  | tick (s : GameState) (pw : ℚ) (cands : List AICand) : Step s (Game.update s pw cands)
  | ev (s : GameState) (e : Game.GEvent) : Step s (Game.handle_event s e)
  | inp (s : GameState) (k : Game.Keys) : Step s (Game.handle_input s k)

/-- States reachable from some initial state of `Game.__init__` by main-loop
transitions. -/
inductive Reachable : GameState → Prop where
  | init (profile : ℤ → ℤ) (wind : ℚ) (ai : Bool) : Reachable (initState profile wind ai)
  | step {s s' : GameState} : Reachable s → Step s s' → Reachable s'

/-! ## Concrete fixtures for counterexamples and witnesses -/

/-- A terrain whose ground surface sits at row 3 (kept shallow so concrete
states evaluate quickly). -/
def exTerrain : Terrain :=
  { width := 960, height := 8, solid := fun _ y => decide (3 ≤ y) }

/-- Side 1 to move; side 1's own shell hovers 4 units above side 1's torso
point `(100, -7)`, far from any terrain. -/
def exSelfHit : GameState :=
  { terrain := exTerrain, wind := 0
    p1 := { x := 100, angle := 45, power := 28, alive := true, facing := 1, yGround := 3 }
    p2 := { x := 844, angle := 45, power := 28, alive := true, facing := -1, yGround := 3 }
    turn := 1
    shell := some { x := 100, y := -3, vx := 0, vy := 0, alive := true }
    aiForP2 := false
    scores := (0, 0) }

/-- Side 1 to move; the shell sits exactly at the ground surface `(100, 3)`,
which is both solid terrain and within 16 units of side 1's torso point
`(100, -7)`; side 2's tank at `x = 120` is within crater range
(`d² = 500 < 784`) of the impact. -/
def exDoubleHit : GameState :=
  { terrain := exTerrain, wind := 0
    p1 := { x := 100, angle := 45, power := 28, alive := true, facing := 1, yGround := 3 }
    p2 := { x := 120, angle := 45, power := 28, alive := true, facing := -1, yGround := 3 }
    turn := 1
    shell := some { x := 100, y := 3, vx := 0, vy := 0, alive := true }
    aiForP2 := false
    scores := (0, 0) }

/-- Side 1 to move; side 2's tank is dead and its torso point is exactly at
the explosion point `(500, 290)`. -/
def exDeadTank : GameState :=
  { terrain := exTerrain, wind := 0
    p1 := { x := 100, angle := 45, power := 28, alive := true, facing := 1, yGround := 3 }
    p2 := { x := 500, angle := 45, power := 28, alive := false, facing := -1, yGround := 300 }
    turn := 1
    shell := none
    aiForP2 := false
    scores := (0, 0) }

/-- A flat terrain profile (clamped by `generate` to skyline row 120). -/
def flatProfile : ℤ → ℤ := fun _ => 0

/-- A fresh match on flat terrain with zero wind and no AI. -/
def exInit : GameState := initState flatProfile 0 false

/-- The fresh match right after side 1 presses fire with a straight-up
muzzle direction (cosine 0, sine 1). -/
def exFired : GameState := Game.handle_event exInit (.keySpace 0 1)

/-- The shell spawned in `exFired`: muzzle `(115, 120 - 12 - 18)`, velocity
`(0, -28·0.8)`. -/
def exShell : Shell := { x := 115, y := 90, vx := 0, vy := -(112 / 5), alive := true }

/-- `exShell` after one integration step with zero wind. -/
def exShellStep : Shell :=
  { x := 115, y := 338 / 5, vx := 0, vy := -(1109 / 50), alive := true }

/-- The shell stored in `exSelfHit`. -/
def exSelfShell : Shell := { x := 100, y := -3, vx := 0, vy := 0, alive := true }

/-- The shell stored in `exDoubleHit`. -/
def exDoubleShell : Shell := { x := 100, y := 3, vx := 0, vy := 0, alive := true }

/-- The shell stored in `exOppHit`. -/
def exOppShell : Shell := { x := 300, y := -3, vx := 0, vy := 0, alive := true }

/-- Side 1 to move; side 1's shell hovers 4 units above side 2's torso point
`(300, -7)` (an opponent hit), far from side 1's tank and from any
terrain. -/
def exOppHit : GameState :=
  { terrain := exTerrain, wind := 0
    p1 := { x := 100, angle := 45, power := 28, alive := true, facing := 1, yGround := 3 }
    p2 := { x := 300, angle := 45, power := 28, alive := true, facing := -1, yGround := 3 }
    turn := 1
    shell := some exOppShell
    aiForP2 := false
    scores := (0, 0) }

/-- An AI candidate draw whose launch direction points along +x
(cosine 1, sine 0), so the simulated trajectory exits the right play bound
within a few steps. -/
def exCand : AICand := { ang := 45, c := 1, sn := 0 }

/-- Ten copies of `exCand`: a candidate set in which every trajectory exits
bounds almost immediately. -/
def exCands : List AICand := List.replicate 10 exCand

/-- Side 2's (AI) turn with no live shell on the shallow test terrain. -/
def exAIState : GameState :=
  { terrain := exTerrain, wind := 0
    p1 := { x := 100, angle := 45, power := 28, alive := true, facing := 1, yGround := 3 }
    p2 := { x := 844, angle := 45, power := 28, alive := true, facing := -1, yGround := 3 }
    turn := 2
    shell := none
    aiForP2 := true
    scores := (0, 0) }

/-- The state invariant maintained by the match controller: the stored shell
object, if any, is alive at tick boundaries; both combatants are alive; the
turn owner is side 1 or side 2. -/
def Inv (s : GameState) : Prop :=
  (s.shell = none ∨ ∃ sh, s.shell = some sh ∧ sh.alive = true) ∧
  s.p1.alive = true ∧ s.p2.alive = true ∧ (s.turn = 1 ∨ s.turn = 2)

/-! ## Counterexamples -/

/-- C1 counterexample: with side 1 as turn owner and side 1's own live shell
passing within the 16-unit hit radius of side 1's own torso (distance 4,
with no terrain hit at the shell's integer position), the per-tick update
awards the fixed 30-point bonus to side 2 — refuting the claim that the
proximity hit counts only for the opponent by turn-relative indexing (so
that a self-proximity pass awards no bonus to side 2). -/
theorem prox_self_hit_awards_opponent_cex :
    exSelfHit.turn = 1 ∧
    Game.prox_hit exSelfHit.p1 (Shell.stepW { x := 100, y := -3, vx := 0, vy := 0, alive := true } 0) = true ∧
    Game.terrain_hit exSelfHit.terrain 100 (-3) = false ∧
    (Game.update exSelfHit 0 []).scores.2 = 30 ∧
    exSelfHit.scores.2 = 0 := by
  with_unfolding_all decide

/-- C2 counterexample: a tick on which the shell's integer position is solid
terrain (terrain-collision test hits) while the shell is also within the
16-unit radius of living side 1's torso: the update still runs the
proximity test, awards the 30-point proximity bonus to side 2, and runs
explosion resolution twice — side 2's tank in crater range is credited to
side 1's score twice (2 × 8 = 16) — refuting the claim that a terrain
strike produces exactly one explosion and no proximity bonus that tick. -/
theorem terrain_hit_still_awards_prox_cex :
    Game.terrain_hit exDoubleHit.terrain 100 3 = true ∧
    Game.prox_hit exDoubleHit.p1 (Shell.stepW { x := 100, y := 3, vx := 0, vy := 0, alive := true } 0) = true ∧
    (Game.update exDoubleHit 0 []).scores.2 = 30 ∧
    (Game.update exDoubleHit 0 []).scores.1 = 16 ∧
    Game.awardOfDistSq (Game.distSqZ exDoubleHit.p2 100 3).toNat = 8 ∧
    exDoubleHit.scores = (0, 0) := by
  with_unfolding_all decide

/-- C3 counterexample: explosion resolution awards the distance-graded bonus
for a dead combatant of the non-firing side: with side 2's tank dead and its
torso point at the impact, side 1's score still gains 40 — refuting the
claim that no award is made for dead combatants. -/
theorem explode_awards_dead_combatant_cex :
    exDeadTank.p2.alive = false ∧
    (Game.explode exDeadTank 500 290).scores.1 = 40 ∧
    exDeadTank.scores.1 = 0 := by
  with_unfolding_all decide


/-! ## Component effect lemmas -/

namespace Game

@[simp] theorem addScore_p1 (s : GameState) (i n : ℕ) : (addScore s i n).p1 = s.p1 := by
  unfold addScore; split <;> rfl

@[simp] theorem addScore_p2 (s : GameState) (i n : ℕ) : (addScore s i n).p2 = s.p2 := by
  unfold addScore; split <;> rfl

@[simp] theorem addScore_turn (s : GameState) (i n : ℕ) : (addScore s i n).turn = s.turn := by
  unfold addScore; split <;> rfl

@[simp] theorem addScore_shell (s : GameState) (i n : ℕ) : (addScore s i n).shell = s.shell := by
  unfold addScore; split <;> rfl

@[simp] theorem addScore_terrain (s : GameState) (i n : ℕ) :
    (addScore s i n).terrain = s.terrain := by
  unfold addScore; split <;> rfl

@[simp] theorem addScore_aiForP2 (s : GameState) (i n : ℕ) :
    (addScore s i n).aiForP2 = s.aiForP2 := by
  unfold addScore; split <;> rfl

theorem addScore_zero_scores (s : GameState) (n : ℕ) :
    (addScore s 0 n).scores = (s.scores.1 + n, s.scores.2) := by
  unfold addScore; simp

theorem addScore_one_scores (s : GameState) (n : ℕ) :
    (addScore s 1 n).scores = (s.scores.1, s.scores.2 + n) := by
  unfold addScore; simp

@[simp] theorem explodeAward_p1 (s : GameState) (x y : ℤ) (i : ℕ) (t : Tank) :
    (explodeAward s x y i t).p1 = s.p1 := by
  unfold explodeAward; split <;> (try split) <;> simp

@[simp] theorem explodeAward_p2 (s : GameState) (x y : ℤ) (i : ℕ) (t : Tank) :
    (explodeAward s x y i t).p2 = s.p2 := by
  unfold explodeAward; split <;> (try split) <;> simp

@[simp] theorem explodeAward_turn (s : GameState) (x y : ℤ) (i : ℕ) (t : Tank) :
    (explodeAward s x y i t).turn = s.turn := by
  unfold explodeAward; split <;> (try split) <;> simp

@[simp] theorem explodeAward_shell (s : GameState) (x y : ℤ) (i : ℕ) (t : Tank) :
    (explodeAward s x y i t).shell = s.shell := by
  unfold explodeAward; split <;> (try split) <;> simp

@[simp] theorem explodeAward_terrain (s : GameState) (x y : ℤ) (i : ℕ) (t : Tank) :
    (explodeAward s x y i t).terrain = s.terrain := by
  unfold explodeAward; split <;> (try split) <;> simp

@[simp] theorem explodeAward_aiForP2 (s : GameState) (x y : ℤ) (i : ℕ) (t : Tank) :
    (explodeAward s x y i t).aiForP2 = s.aiForP2 := by
  unfold explodeAward; split <;> (try split) <;> simp

@[simp] theorem explode_p1 (s : GameState) (x y : ℤ) : (explode s x y).p1 = s.p1 := by
  unfold explode; simp

@[simp] theorem explode_p2 (s : GameState) (x y : ℤ) : (explode s x y).p2 = s.p2 := by
  unfold explode; simp

@[simp] theorem explode_turn (s : GameState) (x y : ℤ) : (explode s x y).turn = s.turn := by
  unfold explode; simp

@[simp] theorem explode_shell (s : GameState) (x y : ℤ) : (explode s x y).shell = s.shell := by
  unfold explode; simp

@[simp] theorem explode_terrain (s : GameState) (x y : ℤ) :
    (explode s x y).terrain = s.terrain.destroy x y 24 := by
  unfold explode; simp

@[simp] theorem explode_aiForP2 (s : GameState) (x y : ℤ) :
    (explode s x y).aiForP2 = s.aiForP2 := by
  unfold explode; simp

@[simp] theorem prox_resolve_p1 (s : GameState) (sh : Shell) (ix iy : ℤ) :
    (prox_resolve s sh ix iy).1.p1 = s.p1 := by
  unfold prox_resolve; split <;> (try split) <;> simp

@[simp] theorem prox_resolve_p2 (s : GameState) (sh : Shell) (ix iy : ℤ) :
    (prox_resolve s sh ix iy).1.p2 = s.p2 := by
  unfold prox_resolve; split <;> (try split) <;> simp

@[simp] theorem prox_resolve_turn (s : GameState) (sh : Shell) (ix iy : ℤ) :
    (prox_resolve s sh ix iy).1.turn = s.turn := by
  unfold prox_resolve; split <;> (try split) <;> simp

@[simp] theorem prox_resolve_shell (s : GameState) (sh : Shell) (ix iy : ℤ) :
    (prox_resolve s sh ix iy).1.shell = s.shell := by
  unfold prox_resolve; split <;> (try split) <;> simp

@[simp] theorem prox_resolve_aiForP2 (s : GameState) (sh : Shell) (ix iy : ℤ) :
    (prox_resolve s sh ix iy).1.aiForP2 = s.aiForP2 := by
  unfold prox_resolve; split <;> (try split) <;> simp

@[simp] theorem tpog_p1_alive (s : GameState) :
    (tank_positions_on_ground s).p1.alive = s.p1.alive := rfl

@[simp] theorem tpog_p2_alive (s : GameState) :
    (tank_positions_on_ground s).p2.alive = s.p2.alive := rfl

@[simp] theorem tpog_turn (s : GameState) : (tank_positions_on_ground s).turn = s.turn := rfl

@[simp] theorem tpog_shell (s : GameState) :
    (tank_positions_on_ground s).shell = s.shell := rfl

@[simp] theorem tpog_scores (s : GameState) :
    (tank_positions_on_ground s).scores = s.scores := rfl

@[simp] theorem tpog_terrain (s : GameState) :
    (tank_positions_on_ground s).terrain = s.terrain := rfl

@[simp] theorem tpog_aiForP2 (s : GameState) :
    (tank_positions_on_ground s).aiForP2 = s.aiForP2 := rfl

@[simp] theorem tpog_p1_angle (s : GameState) :
    (tank_positions_on_ground s).p1.angle = s.p1.angle := rfl

@[simp] theorem tpog_p1_power (s : GameState) :
    (tank_positions_on_ground s).p1.power = s.p1.power := rfl

@[simp] theorem tpog_p2_angle (s : GameState) :
    (tank_positions_on_ground s).p2.angle = s.p2.angle := rfl

@[simp] theorem tpog_p2_power (s : GameState) :
    (tank_positions_on_ground s).p2.power = s.p2.power := rfl

@[simp] theorem tpog_p1_yGround (s : GameState) :
    (tank_positions_on_ground s).p1.yGround = (s.terrain.ground_y_at s.p1.x : ℤ) := rfl

@[simp] theorem tpog_p2_yGround (s : GameState) :
    (tank_positions_on_ground s).p2.yGround = (s.terrain.ground_y_at s.p2.x : ℤ) := rfl

@[simp] theorem spawn_shell_alive (t : Tank) (c sn : ℚ) : (spawn_shell t c sn).alive = true := rfl

end Game

namespace Game

@[simp] theorem saf_p1 (s : GameState) (pw : ℚ) (cands : List AICand) :
    (simple_ai_fire s pw cands).p1 = s.p1 := by
  rcases hb : (aiBest s pw cands none ((10 : ℚ) ^ 9)).1 with _ | cd <;>
    simp [simple_ai_fire, hb]

@[simp] theorem saf_turn (s : GameState) (pw : ℚ) (cands : List AICand) :
    (simple_ai_fire s pw cands).turn = s.turn := by
  rcases hb : (aiBest s pw cands none ((10 : ℚ) ^ 9)).1 with _ | cd <;>
    simp [simple_ai_fire, hb]

@[simp] theorem saf_scores (s : GameState) (pw : ℚ) (cands : List AICand) :
    (simple_ai_fire s pw cands).scores = s.scores := by
  rcases hb : (aiBest s pw cands none ((10 : ℚ) ^ 9)).1 with _ | cd <;>
    simp [simple_ai_fire, hb]

@[simp] theorem saf_p2_alive (s : GameState) (pw : ℚ) (cands : List AICand) :
    (simple_ai_fire s pw cands).p2.alive = s.p2.alive := by
  rcases hb : (aiBest s pw cands none ((10 : ℚ) ^ 9)).1 with _ | cd <;>
    simp [simple_ai_fire, hb]

theorem saf_shell (s : GameState) (pw : ℚ) (cands : List AICand) :
    (simple_ai_fire s pw cands).shell = s.shell ∨
      ∃ sh, (simple_ai_fire s pw cands).shell = some sh ∧ sh.alive = true := by
  rcases hb : (aiBest s pw cands none ((10 : ℚ) ^ 9)).1 with _ | cd
  · left; simp [simple_ai_fire, hb]
  · right
    refine ⟨spawn_shell { s.p2 with angle := cd.ang, power := pw } cd.c cd.sn, ?_, rfl⟩
    simp [simple_ai_fire, hb]

@[simp] theorem ai_branch_p1 (s : GameState) (pw : ℚ) (cands : List AICand) :
    (ai_branch s pw cands).p1 = s.p1 := by
  unfold ai_branch; split <;> simp

@[simp] theorem ai_branch_turn (s : GameState) (pw : ℚ) (cands : List AICand) :
    (ai_branch s pw cands).turn = s.turn := by
  unfold ai_branch; split <;> simp

@[simp] theorem ai_branch_scores (s : GameState) (pw : ℚ) (cands : List AICand) :
    (ai_branch s pw cands).scores = s.scores := by
  unfold ai_branch; split <;> simp

@[simp] theorem ai_branch_p2_alive (s : GameState) (pw : ℚ) (cands : List AICand) :
    (ai_branch s pw cands).p2.alive = s.p2.alive := by
  unfold ai_branch; split <;> simp

theorem ai_branch_shell (s : GameState) (pw : ℚ) (cands : List AICand) :
    (ai_branch s pw cands).shell = s.shell ∨
      ∃ sh, (ai_branch s pw cands).shell = some sh ∧ sh.alive = true := by
  unfold ai_branch; split
  · exact saf_shell s pw cands
  · left; rfl

theorem flip_mem (t : ℕ) : flip t = 1 ∨ flip t = 2 := by
  unfold flip; split <;> simp

@[simp] theorem handle_input_p1_alive (s : GameState) (k : Keys) :
    (handle_input s k).p1.alive = s.p1.alive := by
  unfold handle_input; split <;> rfl

@[simp] theorem handle_input_p2_alive (s : GameState) (k : Keys) :
    (handle_input s k).p2.alive = s.p2.alive := by
  unfold handle_input; split <;> rfl

@[simp] theorem handle_input_turn (s : GameState) (k : Keys) :
    (handle_input s k).turn = s.turn := by
  unfold handle_input; split <;> rfl

@[simp] theorem handle_input_shell (s : GameState) (k : Keys) :
    (handle_input s k).shell = s.shell := by
  unfold handle_input; split <;> rfl

@[simp] theorem handle_input_scores (s : GameState) (k : Keys) :
    (handle_input s k).scores = s.scores := by
  unfold handle_input; split <;> rfl

end Game

/-! ## The controller invariant is preserved -/

theorem inv_ai_branch {s : GameState} (pw : ℚ) (cands : List AICand)
    (h : Inv s) : Inv (Game.ai_branch s pw cands) := by
  obtain ⟨hsh, ha1, ha2, ht⟩ := h
  refine ⟨?_, by simp [ha1], by simp [ha2], by simp [ht]⟩
  rcases Game.ai_branch_shell s pw cands with he | ⟨sh, he, hal⟩
  · rw [he]; exact hsh
  · exact Or.inr ⟨sh, he, hal⟩

theorem inv_update {s : GameState} (pw : ℚ) (cands : List AICand)
    (h : Inv s) : Inv (Game.update s pw cands) := by
  obtain ⟨hsh, ha1, ha2, ht⟩ := h
  cases hs : s.shell with
  | none =>
    simp only [Game.update, hs]
    exact inv_ai_branch pw cands ⟨hsh, ha1, ha2, ht⟩
  | some sh0 =>
    have hal : sh0.alive = true := by
      rcases hsh with h0 | ⟨sh, hsh2, hal⟩
      · rw [hs] at h0; cases h0
      · rw [hs] at hsh2; injection hsh2 with hh; rw [hh]; exact hal
    simp only [Game.update, hs, hal, if_true]
    split
    · split
      · next hB =>
        refine ⟨?_, by simp [ha1], by simp [ha2], by simp [ht]⟩
        simp only [Bool.and_eq_true] at hB
        exact Or.inr ⟨_, rfl, hB.1.1⟩
      · refine ⟨by simp, by simp [ha1], by simp [ha2], ?_⟩
        simpa using Game.flip_mem _
    · split
      · next hB =>
        refine ⟨?_, by simp [ha1], by simp [ha2], by simp [ht]⟩
        simp only [Bool.and_eq_true] at hB
        exact Or.inr ⟨_, rfl, hB.1.1⟩
      · refine ⟨by simp, by simp [ha1], by simp [ha2], ?_⟩
        simpa using Game.flip_mem _

theorem inv_handle_event {s : GameState} (e : Game.GEvent)
    (h : Inv s) : Inv (Game.handle_event s e) := by
  obtain ⟨hsh, ha1, ha2, ht⟩ := h
  cases e with
  | keyN wind' profile =>
    exact ⟨Or.inl rfl, rfl, rfl, Or.inl rfl⟩
  | keyR profile =>
    refine ⟨?_, by simp [Game.handle_event, ha1], by simp [Game.handle_event, ha2],
      by simp [Game.handle_event, ht]⟩
    simp only [Game.handle_event, Game.tpog_shell]
    exact hsh
  | keyT => exact ⟨hsh, ha1, ha2, ht⟩
  | keySpace c sn =>
    simp only [Game.handle_event]
    split
    · exact ⟨Or.inr ⟨_, rfl, rfl⟩, ha1, ha2, ht⟩
    · exact ⟨hsh, ha1, ha2, ht⟩
  | keyCtrl c sn =>
    simp only [Game.handle_event]
    split
    · exact ⟨Or.inr ⟨_, rfl, rfl⟩, ha1, ha2, ht⟩
    · exact ⟨hsh, ha1, ha2, ht⟩

theorem inv_handle_input {s : GameState} (k : Game.Keys)
    (h : Inv s) : Inv (Game.handle_input s k) := by
  obtain ⟨hsh, ha1, ha2, ht⟩ := h
  exact ⟨by simp; exact hsh, by simp [ha1], by simp [ha2], by simp [ht]⟩

theorem inv_init (profile : ℤ → ℤ) (wind : ℚ) (ai : Bool) :
    Inv (initState profile wind ai) :=
  ⟨Or.inl rfl, rfl, rfl, Or.inl rfl⟩

theorem reachable_inv {s : GameState} (h : Reachable s) : Inv s := by
  induction h with
  | init profile wind ai => exact inv_init profile wind ai
  | step _ hstep ih =>
    cases hstep with
    | tick pw cands => exact inv_update pw cands ih
    | ev e => exact inv_handle_event e ih
    | inp k => exact inv_handle_input k ih


/-! ## Terrain lemmas -/

theorem scanFirst_ge (f : ℕ → Bool) : ∀ (fuel start : ℕ), start ≤ scanFirst f start fuel := by
  intro fuel
  induction fuel with
  | zero => intro start; exact le_refl _
  | succ k ih =>
    intro start
    unfold scanFirst
    split
    · exact le_refl _
    · exact le_trans (Nat.le_succ _) (ih (start + 1))

theorem scanFirst_le (f : ℕ → Bool) : ∀ (fuel start : ℕ), scanFirst f start fuel ≤ start + fuel := by
  intro fuel
  induction fuel with
  | zero => intro start; exact Nat.le_add_right _ _
  | succ k ih =>
    intro start
    unfold scanFirst
    split
    · exact Nat.le_add_right _ _
    · calc scanFirst f (start + 1) k ≤ start + 1 + k := ih (start + 1)
        _ = start + (k + 1) := by omega

theorem scanFirst_sol (f : ℕ → Bool) :
    ∀ (fuel start : ℕ), scanFirst f start fuel < start + fuel →
      f (scanFirst f start fuel) = true := by
  intro fuel
  induction fuel with
  | zero => intro start h; simp only [scanFirst] at h; omega
  | succ k ih =>
    intro start
    unfold scanFirst
    split
    · intro _; assumption
    · intro h
      refine ih (start + 1) ?_
      omega

theorem scanFirst_before (f : ℕ → Bool) :
    ∀ (fuel start y : ℕ), start ≤ y → y < scanFirst f start fuel → f y = false := by
  intro fuel
  induction fuel with
  | zero =>
    intro start y h1 h2
    simp only [scanFirst] at h2
    omega
  | succ k ih =>
    intro start y h1 h2
    simp only [scanFirst] at h2
    by_cases hf : f start = true
    · rw [if_pos hf] at h2; omega
    · rw [if_neg hf] at h2
      rcases Nat.eq_or_lt_of_le h1 with he | hlt
      · rw [he] at hf; simpa using hf
      · exact ih (start + 1) y hlt h2

theorem scanFirst_mono (f g : ℕ → Bool) (hfg : ∀ y, g y = true → f y = true) :
    ∀ (fuel start : ℕ), scanFirst f start fuel ≤ scanFirst g start fuel := by
  intro fuel
  induction fuel with
  | zero => intro start; exact le_refl _
  | succ k ih =>
    intro start
    unfold scanFirst
    by_cases hg : g start = true
    · rw [if_pos hg, if_pos (hfg start hg)]
    · rw [if_neg hg]
      split
      · exact le_trans (Nat.le_succ _) (scanFirst_ge g k (start + 1))
      · exact ih (start + 1)

/-- C7: `destroy(x0, y0, r)` only removes solidity and never adds it — every
cell that is solid after the call was solid before — and consequently for
every column x the value of `ground_y_at(x)` immediately after the call is
greater than or equal to (at or below on screen) its value immediately
before. -/
theorem destroy_only_removes (t : Terrain) (x0 y0 r : ℤ) :
    (∀ x y : ℤ, (t.destroy x0 y0 r).solid x y = true → t.solid x y = true) ∧
    (∀ x : ℤ, t.ground_y_at x ≤ (t.destroy x0 y0 r).ground_y_at x) := by
  constructor
  · intro x y h
    unfold Terrain.destroy at h
    simp only at h
    split at h
    · cases h
    · exact h
  · intro x
    unfold Terrain.ground_y_at
    refine scanFirst_mono _ _ ?_ t.height 0
    intro y h
    unfold Terrain.destroy at h
    simp only at h
    split at h
    · cases h
    · exact h

/-- C7 witness: concrete instance — after carving a radius-24 crater at
`(100, 3)` in the shallow test terrain, the cell `(500, 5)` is still solid
(and was solid before), and the ground at column 100 moved down
(from 3 to its new value, which is at or below 3). -/
theorem destroy_only_removes_witness :
    (exTerrain.destroy 100 3 24).solid 500 5 = true ∧
    exTerrain.solid 500 5 = true ∧
    exTerrain.ground_y_at 100 ≤ (exTerrain.destroy 100 3 24).ground_y_at 100 := by
  have h1 : (exTerrain.destroy 100 3 24).solid 500 5 = true := by with_unfolding_all decide
  exact ⟨h1, (destroy_only_removes exTerrain 100 3 24).1 500 5 h1,
    (destroy_only_removes exTerrain 100 3 24).2 100⟩

/-- C9: `ground_y_at(x)` first clamps x into `[0, width-1]`, then returns the
smallest row y in `[0, height)` whose cell is solid, or `height` when the
column has no solid cell; as a pure function of the terrain state it is
deterministic. -/
theorem ground_y_at_first_solid (t : Terrain) (x : ℤ) :
    t.ground_y_at x ≤ t.height ∧
    (∀ y : ℕ, y < t.ground_y_at x →
      t.solid (max 0 (min ((t.width : ℤ) - 1) x)) (y : ℤ) = false) ∧
    (t.ground_y_at x < t.height →
      t.solid (max 0 (min ((t.width : ℤ) - 1) x)) ((t.ground_y_at x : ℕ) : ℤ) = true) := by
  refine ⟨?_, ?_, ?_⟩
  · simpa using scanFirst_le _ t.height 0
  · intro y hy
    exact scanFirst_before _ t.height 0 y (Nat.zero_le _) hy
  · intro h
    exact scanFirst_sol _ t.height 0 (by simpa using h)

/-- C9 witness: on the shallow test terrain, column 100 has its first solid
row at 3: the result is at most the height, rows 0–2 are empty, and row 3
is solid. -/
theorem ground_y_at_first_solid_witness :
    exTerrain.ground_y_at 100 ≤ exTerrain.height ∧
    exTerrain.solid (max 0 (min ((exTerrain.width : ℤ) - 1) 100)) (2 : ℤ) = false ∧
    exTerrain.solid (max 0 (min ((exTerrain.width : ℤ) - 1) 100))
      ((exTerrain.ground_y_at 100 : ℕ) : ℤ) = true := by
  refine ⟨(ground_y_at_first_solid exTerrain 100).1, ?_, ?_⟩
  · exact (ground_y_at_first_solid exTerrain 100).2.1 2 (by with_unfolding_all decide)
  · exact (ground_y_at_first_solid exTerrain 100).2.2 (by with_unfolding_all decide)


/-! ## Alive-flag and turn helper lemmas -/

theorem update_p1_alive (s : GameState) (pw : ℚ) (cands : List AICand) :
    (Game.update s pw cands).p1.alive = s.p1.alive := by
  cases hs : s.shell with
  | none => simp [Game.update, hs]
  | some sh0 =>
    by_cases hal : sh0.alive = true
    · simp only [Game.update, hs, hal, if_true]
      split <;> split <;> simp
    · have hal2 : sh0.alive = false := by simpa using hal
      simp [Game.update, hs, hal2]

theorem update_p2_alive (s : GameState) (pw : ℚ) (cands : List AICand) :
    (Game.update s pw cands).p2.alive = s.p2.alive := by
  cases hs : s.shell with
  | none => simp [Game.update, hs]
  | some sh0 =>
    by_cases hal : sh0.alive = true
    · simp only [Game.update, hs, hal, if_true]
      split <;> split <;> simp
    · have hal2 : sh0.alive = false := by simpa using hal
      simp [Game.update, hs, hal2]

/-! ## Claim theorems: round reset, regeneration, alive flags, turn, shell -/

/-- C6: the regenerate-terrain-only action (R key) replaces the terrain mask
with a fresh generated one and recomputes both combatants' ground-contact y
from that new terrain, while leaving both per-side scores, the turn owner,
and both combatants' aim state (angle and power) unchanged. -/
theorem regen_terrain_only_spec (s : GameState) (profile : ℤ → ℤ) :
    (Game.handle_event s (.keyR profile)).scores = s.scores ∧
    (Game.handle_event s (.keyR profile)).turn = s.turn ∧
    (Game.handle_event s (.keyR profile)).p1.angle = s.p1.angle ∧
    (Game.handle_event s (.keyR profile)).p1.power = s.p1.power ∧
    (Game.handle_event s (.keyR profile)).p2.angle = s.p2.angle ∧
    (Game.handle_event s (.keyR profile)).p2.power = s.p2.power ∧
    (Game.handle_event s (.keyR profile)).terrain = Terrain.generate profile ∧
    (Game.handle_event s (.keyR profile)).p1.yGround =
      ((Terrain.generate profile).ground_y_at s.p1.x : ℤ) ∧
    (Game.handle_event s (.keyR profile)).p2.yGround =
      ((Terrain.generate profile).ground_y_at s.p2.x : ℤ) := by
  refine ⟨rfl, rfl, rfl, rfl, rfl, rfl, rfl, rfl, rfl⟩

/-- C10: no operation ever sets a combatant's alive flag to False: the
per-tick update and explosion resolution leave both alive flags unchanged,
round reset sets both to True, and hence in every reachable state both
combatants are alive (so the living-combatant guards are always satisfied). -/
theorem alive_never_cleared :
    (∀ (s : GameState) (pw : ℚ) (cands : List AICand),
      (Game.update s pw cands).p1.alive = s.p1.alive ∧
      (Game.update s pw cands).p2.alive = s.p2.alive) ∧
    (∀ (s : GameState) (x y : ℤ),
      (Game.explode s x y).p1.alive = s.p1.alive ∧
      (Game.explode s x y).p2.alive = s.p2.alive) ∧
    (∀ (s : GameState) (regen : Bool) (profile : ℤ → ℤ) (wind' : ℚ),
      (Game.reset_round s regen profile wind').p1.alive = true ∧
      (Game.reset_round s regen profile wind').p2.alive = true) ∧
    (∀ s : GameState, Reachable s → s.p1.alive = true ∧ s.p2.alive = true) := by
  refine ⟨?_, ?_, ?_, ?_⟩
  · intro s pw cands
    exact ⟨update_p1_alive s pw cands, update_p2_alive s pw cands⟩
  · intro s x y
    simp
  · intro s regen profile wind'
    exact ⟨rfl, rfl⟩
  · intro s hr
    obtain ⟨_, ha1, ha2, _⟩ := reachable_inv hr
    exact ⟨ha1, ha2⟩

/-- C10 witness: the last clause applied to a concrete reachable state (a
fresh match on the flat profile), and the update clause at a concrete
state. -/
theorem alive_never_cleared_witness :
    (exInit.p1.alive = true ∧ exInit.p2.alive = true) ∧
    ((Game.update exSelfHit 0 []).p1.alive = exSelfHit.p1.alive ∧
     (Game.update exSelfHit 0 []).p2.alive = exSelfHit.p2.alive) :=
  ⟨alive_never_cleared.2.2.2 exInit (Reachable.init flatProfile 0 false),
   alive_never_cleared.1 exSelfHit 0 []⟩

/-- C4: for every reachable state with a live shell, the turn owner does not
change on a tick after which the shell is still present, and on a tick that
resolves the shell (terrain impact, proximity hit, or out-of-bounds expiry —
exactly the cases in which the shell is cleared) it changes exactly once,
from side 1 to side 2 or from side 2 to side 1. -/
theorem turn_alternates_on_resolution (s : GameState) (pw : ℚ) (cands : List AICand)
    (sh : Shell) (hr : Reachable s) (hs : s.shell = some sh) (hal : sh.alive = true) :
    (∀ sh2 : Shell, (Game.update s pw cands).shell = some sh2 →
      (Game.update s pw cands).turn = s.turn) ∧
    ((Game.update s pw cands).shell = none →
      (s.turn = 1 ∧ (Game.update s pw cands).turn = 2) ∨
      (s.turn = 2 ∧ (Game.update s pw cands).turn = 1)) := by
  obtain ⟨_, _, _, ht⟩ := reachable_inv hr
  simp only [Game.update, hs, hal, if_true]
  constructor
  · intro sh2
    split <;> split <;> intro hsh2 <;> simp at hsh2 ⊢
  · intro hnone
    have hflip : Game.flip s.turn = 2 ∨ Game.flip s.turn = 1 := by
      rcases ht with h1 | h2
      · left; simp [Game.flip, h1]
      · right; simp [Game.flip, h2]
    revert hnone
    split <;> split <;> intro hnone <;> simp at hnone ⊢
    · rcases ht with h1 | h2
      · exact Or.inl ⟨h1, by simp [h1, Game.flip]⟩
      · exact Or.inr ⟨h2, by simp [h2, Game.flip]⟩
    · rcases ht with h1 | h2
      · exact Or.inl ⟨h1, by simp [h1, Game.flip]⟩
      · exact Or.inr ⟨h2, by simp [h2, Game.flip]⟩

/-- C4 witness: in the fresh match right after side 1 fires straight up, the
next tick keeps the shell in flight and the turn stays with side 1. -/
theorem turn_alternates_on_resolution_witness :
    (Game.update exFired 0 []).turn = exFired.turn := by
  have hr : Reachable exFired :=
    Reachable.step (Reachable.init flatProfile 0 false) (Step.ev exInit (.keySpace 0 1))
  have hs : exFired.shell = some exShell := by with_unfolding_all decide
  have hstep : (Game.update exFired 0 []).shell = some exShellStep := by
    with_unfolding_all decide
  have ht : exFired.turn = 1 := by with_unfolding_all decide
  rw [ht]
  have := (turn_alternates_on_resolution exFired 0 [] exShell hr hs rfl).1 exShellStep hstep
  rw [this, ht]

/-- C5: in every reachable state at most one projectile exists (the
controller stores at most one shell object, and it is alive whenever
present); a human fire action while a shell object exists is a no-op; and
while a shell exists the tick function is independent of the AI's random
draws — the AI can only fire on a tick with no live shell. -/
theorem single_live_shell (s : GameState) (hr : Reachable s) :
    (s.shell = none ∨ ∃ sh, s.shell = some sh ∧ sh.alive = true) ∧
    (∀ (sh : Shell) (c sn : ℚ), s.shell = some sh →
      Game.handle_event s (.keySpace c sn) = s ∧
      Game.handle_event s (.keyCtrl c sn) = s) ∧
    (∀ (sh : Shell) (pw : ℚ) (cands : List AICand) (pw' : ℚ) (cands' : List AICand),
      s.shell = some sh → Game.update s pw cands = Game.update s pw' cands') := by
  obtain ⟨hsh, ha1, ha2, ht⟩ := reachable_inv hr
  refine ⟨hsh, ?_, ?_⟩
  · intro sh c sn hsome
    constructor
    · simp [Game.handle_event, hsome]
    · simp [Game.handle_event, hsome]
  · intro sh pw cands pw' cands' hsome
    have hal : sh.alive = true := by
      rcases hsh with h0 | ⟨sh2, hsh2, hal⟩
      · rw [hsome] at h0; cases h0
      · rw [hsome] at hsh2; injection hsh2 with hh; rw [hh]; exact hal
    simp only [Game.update, hsome, hal, if_true]

/-- C5 witness: right after side 1 fires, pressing either fire key changes
nothing, and the stored shell is alive. -/
theorem single_live_shell_witness :
    Game.handle_event exFired (.keySpace 0 1) = exFired ∧
    Game.handle_event exFired (.keyCtrl 0 1) = exFired := by
  have hr : Reachable exFired :=
    Reachable.step (Reachable.init flatProfile 0 false) (Step.ev exInit (.keySpace 0 1))
  have hs : exFired.shell = some exShell := by with_unfolding_all decide
  exact (single_live_shell exFired hr).2.1 exShell 0 1 hs


/-! ## Explosion scoring lemmas -/

theorem explodeAward_skip (s : GameState) (x y : ℤ) (i : ℕ) (t : Tank)
    (h : ¬((s.turn = 1 ∧ i = 1) ∨ (s.turn = 2 ∧ i = 0))) :
    Game.explodeAward s x y i t = s := by
  simp [Game.explodeAward, h]

theorem explodeAward_hit1 (s : GameState) (x y : ℤ) (t : Tank) (h : s.turn = 1) :
    (Game.explodeAward s x y 1 t).scores.1 = s.scores.1 + Game.craterBonus t x y ∧
    (Game.explodeAward s x y 1 t).scores.2 = s.scores.2 := by
  unfold Game.explodeAward Game.craterBonus
  by_cases hd : Game.distSqZ t x y < 784
  · rw [if_pos hd, if_pos hd, if_pos (Or.inl ⟨h, rfl⟩), h]
    simp [Game.addScore_zero_scores]
  · rw [if_neg hd, if_neg hd]
    simp

theorem explodeAward_hit2 (s : GameState) (x y : ℤ) (t : Tank) (h : s.turn = 2) :
    (Game.explodeAward s x y 0 t).scores.2 = s.scores.2 + Game.craterBonus t x y ∧
    (Game.explodeAward s x y 0 t).scores.1 = s.scores.1 := by
  unfold Game.explodeAward Game.craterBonus
  by_cases hd : Game.distSqZ t x y < 784
  · rw [if_pos hd, if_pos hd, if_pos (Or.inr ⟨h, rfl⟩), h]
    simp [Game.addScore_one_scores]
  · rw [if_neg hd, if_neg hd]
    simp

theorem explode_scores_turn1 (s : GameState) (x y : ℤ) (h : s.turn = 1) :
    (Game.explode s x y).scores.1 = s.scores.1 + Game.craterBonus s.p2 x y ∧
    (Game.explode s x y).scores.2 = s.scores.2 := by
  simp only [Game.explode]
  set s1 : GameState := { s with terrain := s.terrain.destroy x y 24 } with hs1
  have hskip : Game.explodeAward s1 x y 0 s1.p1 = s1 :=
    explodeAward_skip s1 x y 0 s1.p1 (by rw [hs1]; simp [h])
  rw [hskip]
  exact explodeAward_hit1 s1 x y s1.p2 (by rw [hs1]; exact h)

theorem explode_scores_turn2 (s : GameState) (x y : ℤ) (h : s.turn = 2) :
    (Game.explode s x y).scores.2 = s.scores.2 + Game.craterBonus s.p1 x y ∧
    (Game.explode s x y).scores.1 = s.scores.1 := by
  simp only [Game.explode]
  set s1 : GameState := { s with terrain := s.terrain.destroy x y 24 } with hs1
  set s2 : GameState := Game.explodeAward s1 x y 0 s1.p1 with hs2
  have hskip : Game.explodeAward s2 x y 1 s2.p2 = s2 :=
    explodeAward_skip s2 x y 1 s2.p2 (by rw [hs2, hs1]; simp [h])
  rw [hskip, hs2]
  exact explodeAward_hit2 s1 x y s1.p1 (by rw [hs1]; exact h)


/-- C1 amended: on a proximity hit the fixed 30-point bonus is indexed by
the hit combatant, not by the turn owner.  In general — with no hypothesis
on whose turn it is — a tick with a live shell, no terrain hit and a
proximity hit on combatant 1 (resp. on combatant 2, combatant 1 clear)
produces exactly the explosion-resolution scores with 30 added to side 2's
(resp. side 1's) accumulator, i.e. to the side opposite the hit combatant.
Consequently, when the opponent of the turn owner is hit, the firing side
receives both its crater bonus and the 30 points (turn 2 with combatant 1
hit, and turn 1 with combatant 2 hit); but when side 1's own shell passes
within the 16-unit radius of side 1's own living torso, side 2 receives
the 30 points and the turn flips. -/
theorem prox_bonus_follows_hit_tank :
    (∀ (s : GameState) (sh : Shell) (pw : ℚ) (cands : List AICand),
      s.shell = some sh → sh.alive = true →
      Game.terrain_hit s.terrain (pyInt (sh.stepW s.wind).x) (pyInt (sh.stepW s.wind).y) = false →
      Game.prox_hit s.p1 (sh.stepW s.wind) = true →
      (Game.update s pw cands).scores =
        ((Game.explode s (pyInt (sh.stepW s.wind).x) (pyInt (sh.stepW s.wind).y)).scores.1,
         (Game.explode s (pyInt (sh.stepW s.wind).x) (pyInt (sh.stepW s.wind).y)).scores.2 + 30) ∧
      (Game.update s pw cands).turn = Game.flip s.turn) ∧
    (∀ (s : GameState) (sh : Shell) (pw : ℚ) (cands : List AICand),
      s.shell = some sh → sh.alive = true →
      Game.terrain_hit s.terrain (pyInt (sh.stepW s.wind).x) (pyInt (sh.stepW s.wind).y) = false →
      Game.prox_hit s.p1 (sh.stepW s.wind) = false →
      Game.prox_hit s.p2 (sh.stepW s.wind) = true →
      (Game.update s pw cands).scores =
        ((Game.explode s (pyInt (sh.stepW s.wind).x) (pyInt (sh.stepW s.wind).y)).scores.1 + 30,
         (Game.explode s (pyInt (sh.stepW s.wind).x) (pyInt (sh.stepW s.wind).y)).scores.2) ∧
      (Game.update s pw cands).turn = Game.flip s.turn) ∧
    (∀ (s : GameState) (sh : Shell) (pw : ℚ) (cands : List AICand),
      s.shell = some sh → sh.alive = true → s.turn = 2 →
      Game.terrain_hit s.terrain (pyInt (sh.stepW s.wind).x) (pyInt (sh.stepW s.wind).y) = false →
      Game.prox_hit s.p1 (sh.stepW s.wind) = true →
      (Game.update s pw cands).scores.2 = s.scores.2 + Game.craterBonus s.p1
        (pyInt (sh.stepW s.wind).x) (pyInt (sh.stepW s.wind).y) + 30 ∧
      (Game.update s pw cands).scores.1 = s.scores.1 ∧
      (Game.update s pw cands).turn = 1) ∧
    (∀ (s : GameState) (sh : Shell) (pw : ℚ) (cands : List AICand),
      s.shell = some sh → sh.alive = true → s.turn = 1 →
      Game.terrain_hit s.terrain (pyInt (sh.stepW s.wind).x) (pyInt (sh.stepW s.wind).y) = false →
      Game.prox_hit s.p1 (sh.stepW s.wind) = false →
      Game.prox_hit s.p2 (sh.stepW s.wind) = true →
      (Game.update s pw cands).scores.1 = s.scores.1 + Game.craterBonus s.p2
        (pyInt (sh.stepW s.wind).x) (pyInt (sh.stepW s.wind).y) + 30 ∧
      (Game.update s pw cands).scores.2 = s.scores.2 ∧
      (Game.update s pw cands).turn = 2) ∧
    (∀ (s : GameState) (sh : Shell) (pw : ℚ) (cands : List AICand),
      s.shell = some sh → sh.alive = true → s.turn = 1 →
      Game.terrain_hit s.terrain (pyInt (sh.stepW s.wind).x) (pyInt (sh.stepW s.wind).y) = false →
      Game.prox_hit s.p1 (sh.stepW s.wind) = true →
      (Game.update s pw cands).scores.2 = s.scores.2 + 30 ∧
      (Game.update s pw cands).turn = 2) := by
  have hgen1 : ∀ (s : GameState) (sh : Shell) (pw : ℚ) (cands : List AICand),
      s.shell = some sh → sh.alive = true →
      Game.terrain_hit s.terrain (pyInt (sh.stepW s.wind).x) (pyInt (sh.stepW s.wind).y) = false →
      Game.prox_hit s.p1 (sh.stepW s.wind) = true →
      (Game.update s pw cands).scores =
        ((Game.explode s (pyInt (sh.stepW s.wind).x) (pyInt (sh.stepW s.wind).y)).scores.1,
         (Game.explode s (pyInt (sh.stepW s.wind).x) (pyInt (sh.stepW s.wind).y)).scores.2 + 30) ∧
      (Game.update s pw cands).turn = Game.flip s.turn := by
    intro s sh pw cands hsh hal hT hP
    simp only [Game.update, hsh, hal, if_true, hT, Bool.false_eq_true, if_false,
      Game.prox_resolve, hP]
    simp only [Bool.not_true, Bool.and_false, Bool.false_eq_true, if_false, if_true]
    constructor
    · simp [Game.addScore_one_scores]
    · simp
  have hgen2 : ∀ (s : GameState) (sh : Shell) (pw : ℚ) (cands : List AICand),
      s.shell = some sh → sh.alive = true →
      Game.terrain_hit s.terrain (pyInt (sh.stepW s.wind).x) (pyInt (sh.stepW s.wind).y) = false →
      Game.prox_hit s.p1 (sh.stepW s.wind) = false →
      Game.prox_hit s.p2 (sh.stepW s.wind) = true →
      (Game.update s pw cands).scores =
        ((Game.explode s (pyInt (sh.stepW s.wind).x) (pyInt (sh.stepW s.wind).y)).scores.1 + 30,
         (Game.explode s (pyInt (sh.stepW s.wind).x) (pyInt (sh.stepW s.wind).y)).scores.2) ∧
      (Game.update s pw cands).turn = Game.flip s.turn := by
    intro s sh pw cands hsh hal hT hP1 hP2
    simp only [Game.update, hsh, hal, if_true, hT, Bool.false_eq_true, if_false,
      Game.prox_resolve, hP1, hP2]
    simp only [Bool.not_true, Bool.and_false, Bool.false_eq_true, if_false, if_true]
    constructor
    · simp [Game.addScore_zero_scores]
    · simp
  refine ⟨hgen1, hgen2, ?_, ?_, ?_⟩
  · intro s sh pw cands hsh hal ht hT hP
    obtain ⟨hsc, htu⟩ := hgen1 s sh pw cands hsh hal hT hP
    have hE := explode_scores_turn2 s (pyInt (sh.stepW s.wind).x) (pyInt (sh.stepW s.wind).y) ht
    refine ⟨?_, ?_, ?_⟩
    · rw [show (Game.update s pw cands).scores.2 = ((Game.update s pw cands).scores).2 from rfl,
        hsc]
      simp [hE.1]
    · rw [show (Game.update s pw cands).scores.1 = ((Game.update s pw cands).scores).1 from rfl,
        hsc]
      simp [hE.2]
    · rw [htu, ht]
      simp [Game.flip]
  · intro s sh pw cands hsh hal ht hT hP1 hP2
    obtain ⟨hsc, htu⟩ := hgen2 s sh pw cands hsh hal hT hP1 hP2
    have hE := explode_scores_turn1 s (pyInt (sh.stepW s.wind).x) (pyInt (sh.stepW s.wind).y) ht
    refine ⟨?_, ?_, ?_⟩
    · rw [show (Game.update s pw cands).scores.1 = ((Game.update s pw cands).scores).1 from rfl,
        hsc]
      simp [hE.1]
    · rw [show (Game.update s pw cands).scores.2 = ((Game.update s pw cands).scores).2 from rfl,
        hsc]
      simp [hE.2]
    · rw [htu, ht]
      simp [Game.flip]
  · intro s sh pw cands hsh hal ht hT hP
    obtain ⟨hsc, htu⟩ := hgen1 s sh pw cands hsh hal hT hP
    have hE := explode_scores_turn1 s (pyInt (sh.stepW s.wind).x) (pyInt (sh.stepW s.wind).y) ht
    refine ⟨?_, ?_⟩
    · rw [show (Game.update s pw cands).scores.2 = ((Game.update s pw cands).scores).2 from rfl,
        hsc]
      simp [hE.2]
    · rw [htu, ht]
      simp [Game.flip]

/-- C1 amended witness: an opponent hit — side 1's turn, side 1's shell 4
units from side 2's torso — credits side 1 with its crater bonus plus the
30 points; and the self-hit state — side 1's turn, side 1's own shell 4
units from side 1's own torso, no terrain hit — yields 30 points for side 2
and the turn passes to side 2. -/
theorem prox_bonus_follows_hit_tank_witness :
    ((Game.update exOppHit 0 []).scores.1 = exOppHit.scores.1 + Game.craterBonus exOppHit.p2
        (pyInt (exOppShell.stepW exOppHit.wind).x) (pyInt (exOppShell.stepW exOppHit.wind).y) + 30 ∧
      (Game.update exOppHit 0 []).scores.2 = exOppHit.scores.2 ∧
      (Game.update exOppHit 0 []).turn = 2) ∧
    ((Game.update exSelfHit 0 []).scores.2 = exSelfHit.scores.2 + 30 ∧
      (Game.update exSelfHit 0 []).turn = 2) :=
  ⟨prox_bonus_follows_hit_tank.2.2.2.1 exOppHit exOppShell 0 []
      (by with_unfolding_all decide) (by with_unfolding_all decide)
      (by with_unfolding_all decide) (by with_unfolding_all decide)
      (by with_unfolding_all decide) (by with_unfolding_all decide),
    prox_bonus_follows_hit_tank.2.2.2.2 exSelfHit exSelfShell 0 []
      (by with_unfolding_all decide) (by with_unfolding_all decide)
      (by with_unfolding_all decide) (by with_unfolding_all decide)
      (by with_unfolding_all decide)⟩

/-- C2 amended: the combatant-proximity loop runs unconditionally, even on a
tick whose terrain-collision test hit.  On a tick where the stepped shell's
integer position is solid terrain and the shell is also within the 16-unit
radius of living side 1's torso (side 1 being the turn owner), explosion
resolution runs twice at the impact point — the crater is carved twice and
the opposing tank's crater bonus is credited twice — and the 30-point
proximity bonus is still awarded (to side 2, the side opposite the hit
tank). -/
theorem prox_test_runs_after_terrain_hit (s : GameState) (sh : Shell) (pw : ℚ)
    (cands : List AICand) (hsh : s.shell = some sh) (hal : sh.alive = true)
    (ht : s.turn = 1)
    (hT : Game.terrain_hit s.terrain (pyInt (sh.stepW s.wind).x) (pyInt (sh.stepW s.wind).y) = true)
    (hP : Game.prox_hit s.p1 (sh.stepW s.wind) = true) :
    (Game.update s pw cands).scores.2 = s.scores.2 + 30 ∧
    (Game.update s pw cands).scores.1 = s.scores.1 + 2 * Game.craterBonus s.p2
      (pyInt (sh.stepW s.wind).x) (pyInt (sh.stepW s.wind).y) ∧
    (Game.update s pw cands).terrain =
      (s.terrain.destroy (pyInt (sh.stepW s.wind).x) (pyInt (sh.stepW s.wind).y) 24).destroy
        (pyInt (sh.stepW s.wind).x) (pyInt (sh.stepW s.wind).y) 24 := by
  have hP1 : Game.prox_hit (Game.explode s (pyInt (sh.stepW s.wind).x)
      (pyInt (sh.stepW s.wind).y)).p1 (sh.stepW s.wind) = true := by
    rw [Game.explode_p1]; exact hP
  simp only [Game.update, hsh, hal, if_true, hT, Game.prox_resolve, hP1]
  simp only [Bool.not_true, Bool.and_false, Bool.false_and, Bool.false_eq_true, if_false, if_true]
  have hs1turn : (Game.explode s (pyInt (sh.stepW s.wind).x) (pyInt (sh.stepW s.wind).y)).turn = 1 := by
    rw [Game.explode_turn]; exact ht
  have h1 := explode_scores_turn1 (Game.explode s (pyInt (sh.stepW s.wind).x)
    (pyInt (sh.stepW s.wind).y)) (pyInt (sh.stepW s.wind).x) (pyInt (sh.stepW s.wind).y) hs1turn
  have h0 := explode_scores_turn1 s (pyInt (sh.stepW s.wind).x) (pyInt (sh.stepW s.wind).y) ht
  refine ⟨?_, ?_, ?_⟩
  · simp [Game.addScore_one_scores, h1.2, h0.2]
  · simp [Game.addScore_one_scores, h1.1, h0.1]
    ring
  · simp

/-- C2 amended witness: the concrete double-hit state — terrain hit and
proximity hit on the same tick — gets 30 points for side 2, twice the
crater bonus (2 × 8) for side 1, and a doubly-carved terrain. -/
theorem prox_test_runs_after_terrain_hit_witness :
    (Game.update exDoubleHit 0 []).scores.2 = exDoubleHit.scores.2 + 30 ∧
    (Game.update exDoubleHit 0 []).scores.1 = exDoubleHit.scores.1 + 2 * Game.craterBonus exDoubleHit.p2
      (pyInt (exDoubleShell.stepW exDoubleHit.wind).x) (pyInt (exDoubleShell.stepW exDoubleHit.wind).y) ∧
    (Game.update exDoubleHit 0 []).terrain =
      (exDoubleHit.terrain.destroy (pyInt (exDoubleShell.stepW exDoubleHit.wind).x)
        (pyInt (exDoubleShell.stepW exDoubleHit.wind).y) 24).destroy
        (pyInt (exDoubleShell.stepW exDoubleHit.wind).x)
        (pyInt (exDoubleShell.stepW exDoubleHit.wind).y) 24 :=
  prox_test_runs_after_terrain_hit exDoubleHit exDoubleShell 0 []
    (by with_unfolding_all decide) (by with_unfolding_all decide)
    (by with_unfolding_all decide) (by with_unfolding_all decide)
    (by with_unfolding_all decide)


/-! ## Integer square root and the award formula -/

theorem sqrtBS_bounds (m : ℕ) :
    ∀ (fuel lo hi : ℕ), lo * lo ≤ m → m < hi * hi → hi ≤ lo + fuel →
      Game.sqrtBS m lo hi fuel * Game.sqrtBS m lo hi fuel ≤ m ∧
      m < (Game.sqrtBS m lo hi fuel + 1) * (Game.sqrtBS m lo hi fuel + 1) := by
  intro fuel
  induction fuel with
  | zero =>
    intro lo hi hlo hhi hf
    exfalso
    have hmul : hi * hi ≤ lo * lo := Nat.mul_le_mul (by omega) (by omega)
    omega
  | succ k ih =>
    intro lo hi hlo hhi hf
    simp only [Game.sqrtBS]
    split
    · next hle =>
      have hmul : hi * hi ≤ (lo + 1) * (lo + 1) := Nat.mul_le_mul hle hle
      exact ⟨hlo, by omega⟩
    · next hgt =>
      push_neg at hgt
      split
      · next hm => exact ih ((lo + hi) / 2) hi hm hhi (by omega)
      · next hm =>
        push_neg at hm
        exact ih lo ((lo + hi) / 2) hlo hm (by omega)

theorem isqrt_bounds (m : ℕ) :
    Game.isqrt m * Game.isqrt m ≤ m ∧ m < (Game.isqrt m + 1) * (Game.isqrt m + 1) := by
  refine sqrtBS_bounds m (m + 1) 0 (m + 1) (by simp) ?_ (by omega)
  have h := Nat.le_mul_of_pos_left (m + 1) (show 0 < m + 1 by omega)
  omega

/-- The computable award encoding equals the Python float expression
`int(40 * (1.0 - d / 28))` read over the reals, for any squared distance
below the guard bound `784 = 28²` (there the quantity is nonnegative, so
`int` truncation is the floor). -/
theorem awardOfDistSq_eq_floor (n : ℕ) (hn : n < 784) :
    (Game.awardOfDistSq n : ℤ) = ⌊(40 : ℝ) * (1 - Real.sqrt n / 28)⌋ := by
  have hb := isqrt_bounds (100 * n)
  set s : ℕ := Game.isqrt (100 * n) with hsdef
  obtain ⟨hs1, hs2⟩ := hb
  have hsle : s ≤ 279 := by
    by_contra hc
    push_neg at hc
    have : 280 * 280 ≤ s * s := Nat.mul_le_mul (by omega) (by omega)
    omega
  set S : ℝ := Real.sqrt (100 * n) with hSdef
  have hS0 : 0 ≤ S := Real.sqrt_nonneg _
  have hS10 : S = 10 * Real.sqrt n := by
    rw [hSdef, show (100 : ℝ) * (n : ℝ) = (10 : ℝ) ^ 2 * (n : ℝ) by ring,
      Real.sqrt_mul (by positivity), Real.sqrt_sq (by norm_num)]
  have hs1R : (s : ℝ) * s ≤ 100 * n := by exact_mod_cast hs1
  have hs2R : (100 : ℝ) * n < (s + 1) * (s + 1) := by exact_mod_cast hs2
  have hlow : (s : ℝ) ≤ S := by
    rw [hSdef, Real.le_sqrt (by positivity) (by positivity)]
    nlinarith [hs1R]
  have hhigh : S < (s : ℝ) + 1 := by
    rw [hSdef, Real.sqrt_lt' (by positivity)]
    nlinarith [hs2R]
  have hform : (40 : ℝ) * (1 - Real.sqrt n / 28) = 40 - S / 7 := by
    rw [hS10]; ring
  rw [hform]
  obtain ⟨q, r, hs_eq, hr7, hq39⟩ : ∃ q r, s = 7 * q + r ∧ r < 7 ∧ q ≤ 39 :=
    ⟨s / 7, s % 7, by omega, by omega, by omega⟩
  have hq : s / 7 = q := by omega
  have hr : s % 7 = r := by omega
  have hsR : (s : ℝ) = 7 * q + r := by exact_mod_cast hs_eq
  simp only [Game.awardOfDistSq]
  rw [← hsdef, hq, hr]
  split
  · next hex =>
    obtain ⟨hexact, hr0⟩ := hex
    have h100 : (100 : ℝ) * n = (s : ℝ) ^ 2 := by
      have hc : ((s : ℝ)) * s = 100 * n := by exact_mod_cast hexact
      nlinarith [hc]
    have hSs : S = (s : ℝ) := by
      rw [hSdef, h100, Real.sqrt_sq (by positivity)]
    have hzq : ((40 - q : ℕ) : ℤ) = 40 - (q : ℤ) := by omega
    rw [hzq, eq_comm, Int.floor_eq_iff, hSs]
    have hr0R : (r : ℝ) = 0 := by exact_mod_cast hr0
    constructor
    · push_cast
      rw [hsR, hr0R]
      ring_nf
      linarith
    · push_cast
      rw [hsR, hr0R]
      ring_nf
      linarith
  · next hex =>
    have hstrict : 7 * (q : ℝ) < S := by
      rcases Nat.eq_zero_or_pos r with hr0 | hrpos
      · have hne : s * s ≠ 100 * n := fun hcontra => hex ⟨hcontra, hr0⟩
        have hslt : (s : ℝ) < S := by
          rw [hSdef, Real.lt_sqrt (by positivity)]
          have hlt : s * s < 100 * n := by omega
          have hltR : ((s : ℝ)) * s < 100 * n := by exact_mod_cast hlt
          nlinarith [hltR]
        have hr0R : (r : ℝ) = 0 := by exact_mod_cast hr0
        rw [hsR, hr0R] at hslt
        linarith
      · have hge1 : (1 : ℝ) ≤ r := by exact_mod_cast hrpos
        have : 7 * (q : ℝ) + 1 ≤ (s : ℝ) := by rw [hsR]; linarith
        linarith [hlow]
    have hup : S < 7 * (q : ℝ) + 7 := by
      have hrle : (r : ℝ) ≤ 6 := by exact_mod_cast (show r ≤ 6 by omega)
      have : (s : ℝ) + 1 ≤ 7 * (q : ℝ) + 7 := by rw [hsR]; linarith
      linarith [hhigh]
    have hzq : ((40 - (q + 1) : ℕ) : ℤ) = 39 - (q : ℤ) := by omega
    rw [hzq, eq_comm, Int.floor_eq_iff]
    constructor
    · push_cast
      linarith [hup]
    · push_cast
      linarith [hstrict]


/-- C3 amended: explosion resolution at `(x, y)` carves a crater of fixed
radius 24 and, for each combatant of the non-firing side whose integer
squared distance from the impact is below `28² = 784` (i.e. `d < radius+4`),
adds `int(40·(1−d/28))` to the firing side's score, exactly once per
combatant per explosion; the award is 40 at `d = 0` and absent (0) from
`d = 28` on, and no award is made for the firing side's own combatant or
for combatants at distance ≥ 28.  Unlike the claim, the alive flag is not
consulted: a dead combatant of the non-firing side in range is awarded for
as well (in reachable states both combatants are always alive, so the
difference is invisible in play). -/
theorem explode_crater_and_scoring (s : GameState) (x y : ℤ) :
    ((∀ a b : ℤ, (a - x) ^ 2 + (b - y) ^ 2 ≤ 576 →
        (Game.explode s x y).terrain.solid a b = false) ∧
     (∀ a b : ℤ, 576 < (a - x) ^ 2 + (b - y) ^ 2 →
        (Game.explode s x y).terrain.solid a b = s.terrain.solid a b)) ∧
    (s.turn = 1 →
      (Game.explode s x y).scores.1 = s.scores.1 + Game.craterBonus s.p2 x y ∧
      (Game.explode s x y).scores.2 = s.scores.2) ∧
    (s.turn = 2 →
      (Game.explode s x y).scores.2 = s.scores.2 + Game.craterBonus s.p1 x y ∧
      (Game.explode s x y).scores.1 = s.scores.1) ∧
    (∀ t : Tank, Game.distSqZ t x y < 784 →
      (Game.craterBonus t x y : ℤ) =
        ⌊(40 : ℝ) * (1 - Real.sqrt ((Game.distSqZ t x y).toNat) / 28)⌋) ∧
    (∀ t : Tank, 784 ≤ Game.distSqZ t x y → Game.craterBonus t x y = 0) ∧
    (∀ t : Tank, Game.distSqZ t x y = 0 → Game.craterBonus t x y = 40) := by
  refine ⟨⟨?_, ?_⟩, explode_scores_turn1 s x y, explode_scores_turn2 s x y, ?_, ?_, ?_⟩
  · intro a b hab
    rw [Game.explode_terrain]
    unfold Terrain.destroy
    simp only
    rw [if_pos (by norm_num; omega)]
  · intro a b hab
    rw [Game.explode_terrain]
    unfold Terrain.destroy
    simp only
    rw [if_neg (by norm_num; omega)]
  · intro t hd
    unfold Game.craterBonus
    rw [if_pos hd]
    refine awardOfDistSq_eq_floor _ ?_
    have h0 : 0 ≤ Game.distSqZ t x y := by unfold Game.distSqZ; positivity
    omega
  · intro t hd
    unfold Game.craterBonus
    rw [if_neg (by omega)]
  · intro t hd
    unfold Game.craterBonus
    rw [hd]
    norm_num
    with_unfolding_all decide

/-- C3 amended witness: exploding at the dead opposing tank's torso point
(squared distance 0) during side 1's turn credits side 1 with exactly the
crater bonus, which is 40 there. -/
theorem explode_crater_and_scoring_witness :
    ((Game.explode exDeadTank 500 290).scores.1 =
      exDeadTank.scores.1 + Game.craterBonus exDeadTank.p2 500 290 ∧
     (Game.explode exDeadTank 500 290).scores.2 = exDeadTank.scores.2) ∧
    Game.craterBonus exDeadTank.p2 500 290 = 40 :=
  ⟨(explode_crater_and_scoring exDeadTank 500 290).2.1 (by with_unfolding_all decide),
   (explode_crater_and_scoring exDeadTank 500 290).2.2.2.2.2 exDeadTank.p2
     (by with_unfolding_all decide)⟩


/-! ## AI planner lemmas -/

theorem aiSim_drift (terr : Terrain) (w : ℚ) :
    ∀ (k : ℕ) (x y vx vy : ℚ),
      |Game.aiSim terr w k x y vx vy - x| ≤ (k : ℚ) * |vx| + ((k : ℚ) * k) * (|w| / 50) := by
  intro k
  induction k with
  | zero =>
    intro x y vx vy
    simp [Game.aiSim]
  | succ m ih =>
    intro x y vx vy
    have hm0 : (0 : ℚ) ≤ (m : ℚ) := Nat.cast_nonneg m
    have hv0 : (0 : ℚ) ≤ |vx| := abs_nonneg vx
    have hw0 : (0 : ℚ) ≤ |w| := abs_nonneg w
    have hcast : ((m + 1 : ℕ) : ℚ) = (m : ℚ) + 1 := by push_cast; ring
    simp only [Game.aiSim]
    split
    · rw [show x + vx - x = vx by ring, hcast]
      nlinarith
    · split
      · rw [show x + vx - x = vx by ring, hcast]
        nlinarith
      · set A : ℚ := Game.aiSim terr w m (x + vx) (y + vy) (vx + w * (2 / 100))
          (vy + GRAVITY) with hA
        have h := ih (x + vx) (y + vy) (vx + w * (2 / 100)) (vy + GRAVITY)
        rw [← hA] at h
        have habs : |vx + w * (2 / 100)| ≤ |vx| + |w| * (2 / 100) := by
          have h1 := abs_add vx (w * (2 / 100))
          have h2 : |w * (2 / 100)| = |w| * (2 / 100) := by
            rw [abs_mul]
            norm_num
          linarith
        have htri : |A - x| ≤ |A - (x + vx)| + |vx| := by
          have h1 := abs_add (A - (x + vx)) vx
          rw [show A - (x + vx) + vx = A - x by ring] at h1
          exact h1
        have hmul : (m : ℚ) * |vx + w * (2 / 100)| ≤ (m : ℚ) * (|vx| + |w| * (2 / 100)) :=
          mul_le_mul_of_nonneg_left habs hm0
        rw [hcast]
        nlinarith [h, htri, hmul]

theorem aiLand_lt (s : GameState) (pw : ℚ) (cd : AICand)
    (hpw1 : 24 ≤ pw) (hpw2 : pw ≤ 30) (hc : |cd.c| ≤ 1) (hw : |s.wind| ≤ 18 / 100)
    (hp1 : |(s.p1.x : ℚ)| ≤ 960) (hp2 : |(s.p2.x : ℚ)| ≤ 960) :
    |Game.aiLand s pw cd - (s.p1.x : ℚ)| < 10 ^ 9 := by
  have hd := aiSim_drift s.terrain s.wind 240 (s.p2.x : ℚ) ((s.p2.yGround : ℚ) - 12)
    (cd.c * pw * (4 / 5)) (-(cd.sn * pw * (4 / 5)))
  have hL : |Game.aiLand s pw cd - (s.p2.x : ℚ)| ≤
      ((240 : ℕ) : ℚ) * |cd.c * pw * (4 / 5)| +
      (((240 : ℕ) : ℚ) * (240 : ℕ)) * (|s.wind| / 50) := hd
  have hvx : |cd.c * pw * (4 / 5)| ≤ 24 := by
    rw [abs_mul, abs_mul]
    have hpwa : |pw| ≤ 30 := by rw [abs_of_nonneg (by linarith)]; exact hpw2
    have h45 : |(4 / 5 : ℚ)| = 4 / 5 := by norm_num
    rw [h45]
    nlinarith [abs_nonneg cd.c, abs_nonneg pw]
  have htri : |Game.aiLand s pw cd - (s.p1.x : ℚ)| ≤
      |Game.aiLand s pw cd - (s.p2.x : ℚ)| + (|(s.p2.x : ℚ)| + |(s.p1.x : ℚ)|) := by
    have h1 := abs_add (Game.aiLand s pw cd - (s.p2.x : ℚ)) ((s.p2.x : ℚ) - (s.p1.x : ℚ))
    rw [show Game.aiLand s pw cd - (s.p2.x : ℚ) + ((s.p2.x : ℚ) - (s.p1.x : ℚ)) =
      Game.aiLand s pw cd - (s.p1.x : ℚ) by ring] at h1
    have h2 := abs_sub (s.p2.x : ℚ) (s.p1.x : ℚ)
    linarith
  have hcast : ((240 : ℕ) : ℚ) = 240 := by norm_num
  rw [hcast] at hL
  have hpow : (10 : ℚ) ^ 9 = 1000000000 := by norm_num
  rw [hpow]
  linarith [hL, htri, hvx, hw, hp1, hp2]

theorem aiBest_spec (s : GameState) (pw : ℚ) :
    ∀ (l : List AICand) (best : Option AICand) (bd : ℚ),
      (Game.aiBest s pw l best bd).2 ≤ bd ∧
      (∀ cd ∈ l, (Game.aiBest s pw l best bd).2 ≤ |Game.aiLand s pw cd - (s.p1.x : ℚ)|) ∧
      (((Game.aiBest s pw l best bd).1 = best ∧ (Game.aiBest s pw l best bd).2 = bd) ∨
        ∃ cd ∈ l, (Game.aiBest s pw l best bd).1 = some cd ∧
          (Game.aiBest s pw l best bd).2 = |Game.aiLand s pw cd - (s.p1.x : ℚ)|) := by
  intro l
  induction l with
  | nil =>
    intro best bd
    simp [Game.aiBest]
  | cons cd rest ih =>
    intro best bd
    simp only [Game.aiBest]
    split
    · next hlt =>
      obtain ⟨ih1, ih2, ih3⟩ := ih (some cd) (|Game.aiLand s pw cd - (s.p1.x : ℚ)|)
      refine ⟨le_trans ih1 (le_of_lt hlt), ?_, ?_⟩
      · intro cd2 hm
        rcases List.mem_cons.mp hm with he | hts
        · rw [he]; exact ih1
        · exact ih2 cd2 hts
      · rcases ih3 with ⟨h1, h2⟩ | ⟨cd2, hm, h1, h2⟩
        · exact Or.inr ⟨cd, List.mem_cons_self _ _, h1, h2⟩
        · exact Or.inr ⟨cd2, List.mem_cons_of_mem _ hm, h1, h2⟩
    · next hge =>
      push_neg at hge
      obtain ⟨ih1, ih2, ih3⟩ := ih best bd
      refine ⟨ih1, ?_, ?_⟩
      · intro cd2 hm
        rcases List.mem_cons.mp hm with he | hts
        · rw [he]; exact le_trans ih1 hge
        · exact ih2 cd2 hts
      · rcases ih3 with h | ⟨cd2, hm, h1, h2⟩
        · exact Or.inl h
        · exact Or.inr ⟨cd2, List.mem_cons_of_mem _ hm, h1, h2⟩

/-- C8: whenever the AI planner runs (AI flag set, side 2's turn, no live
shell), it always fires exactly one shell: among the 10 sampled candidates
(each paired with the single shared power draw, in the code's sampled
ranges `power ∈ [24, 30]`, `|cos| ≤ 1`, `|wind| ≤ 0.18`, on-screen tank
anchors), it selects a candidate whose forward-simulated landing x has
minimum absolute distance to the opponent's anchor x, sets the AI
combatant's angle and power to that candidate, and spawns a live shell —
whatever the simulated trajectories do, including when every candidate
exits the play bounds immediately. -/
theorem ai_always_fires (s : GameState) (pw : ℚ) (cands : List AICand)
    (hai : s.aiForP2 = true) (ht : s.turn = 2) (hsh : s.shell = none)
    (hlen : cands.length = 10)
    (hcb : ∀ cd ∈ cands, |cd.c| ≤ 1)
    (hpw1 : 24 ≤ pw) (hpw2 : pw ≤ 30) (hw : |s.wind| ≤ 18 / 100)
    (hp1 : |(s.p1.x : ℚ)| ≤ 960) (hp2 : |(s.p2.x : ℚ)| ≤ 960) :
    ∃ cd, cd ∈ cands ∧
      (Game.update s pw cands).p2.angle = cd.ang ∧
      (Game.update s pw cands).p2.power = pw ∧
      (∃ sh, (Game.update s pw cands).shell = some sh ∧ sh.alive = true) ∧
      ∀ cd2 ∈ cands, |Game.aiLand s pw cd - (s.p1.x : ℚ)| ≤
        |Game.aiLand s pw cd2 - (s.p1.x : ℚ)| := by
  obtain ⟨h1, h2, h3⟩ := aiBest_spec s pw cands none ((10 : ℚ) ^ 9)
  obtain ⟨cd0, rest, hcons⟩ : ∃ cd0 rest, cands = cd0 :: rest := by
    cases cands with
    | nil => simp at hlen
    | cons a l => exact ⟨a, l, rfl⟩
  have hcd0mem : cd0 ∈ cands := by rw [hcons]; exact List.mem_cons_self _ _
  have hlt : (Game.aiBest s pw cands none ((10 : ℚ) ^ 9)).2 < 10 ^ 9 :=
    lt_of_le_of_lt (h2 cd0 hcd0mem)
      (aiLand_lt s pw cd0 hpw1 hpw2 (hcb cd0 hcd0mem) hw hp1 hp2)
  rcases h3 with ⟨hb1, hb2⟩ | ⟨cd, hm, hb1, hb2⟩
  · rw [hb2] at hlt
    exact absurd hlt (lt_irrefl _)
  · have hupd : Game.update s pw cands = Game.simple_ai_fire s pw cands := by
      simp [Game.update, hsh, Game.ai_branch, hai, ht]
    refine ⟨cd, hm, ?_, ?_, ?_, ?_⟩
    · rw [hupd]; simp [Game.simple_ai_fire, hb1]
    · rw [hupd]; simp [Game.simple_ai_fire, hb1]
    · rw [hupd]
      refine ⟨Game.spawn_shell { s.p2 with angle := cd.ang, power := pw } cd.c cd.sn, ?_, rfl⟩
      simp [Game.simple_ai_fire, hb1]
    · intro cd2 hm2
      rw [← hb2]
      exact h2 cd2 hm2

/-- C8 witness: on the shallow test terrain with zero wind, running the AI
with power 24 and ten copies of a candidate whose trajectory exits the right
play bound within a few steps still fires a live shell with that candidate's
angle and power. -/
theorem ai_always_fires_witness :
    ∃ cd, cd ∈ exCands ∧
      (Game.update exAIState 24 exCands).p2.angle = cd.ang ∧
      (Game.update exAIState 24 exCands).p2.power = 24 ∧
      (∃ sh, (Game.update exAIState 24 exCands).shell = some sh ∧ sh.alive = true) ∧
      ∀ cd2 ∈ exCands, |Game.aiLand exAIState 24 cd - (exAIState.p1.x : ℚ)| ≤
        |Game.aiLand exAIState 24 cd2 - (exAIState.p1.x : ℚ)| :=
  ai_always_fires exAIState 24 exCands rfl rfl rfl
    (by with_unfolding_all decide)
    (by intro cd hm; simp [exCands, exCand] at hm; rw [hm]; with_unfolding_all decide)
    (by with_unfolding_all decide) (by with_unfolding_all decide)
    (by with_unfolding_all decide) (by with_unfolding_all decide)
    (by with_unfolding_all decide)

end PocketTanks
